import Mathlib

/-!
Verification of the real-time session coordination layer of the Meetingapp
repository (`backend/meetings/consumers.py`, `backend/meetings/views.py`,
`backend/meetings/tasks.py`, `backend/billing/plan_limits.py`).

The Python code is shallowly embedded: each handler becomes a pure Lean
function from its inputs (payload, database view, cache state) to the list
of observable actions it performs together with the updated state.  The
Redis cache counter for a room is `Option Nat` (`none` = key absent).
-/

namespace Meetingapp

/-- Plan limits as resolved by `billing/plan_limits.py` (`PlanLimits._resolve_limits`).
Only the fields the signaling layer consults are kept. -/
structure PlanLimitsRec where
  tier : String
  max_participants : Nat
  max_meeting_duration_minutes : Int
  breakout_rooms : Bool
  recording_enabled : Bool
  deriving Repr, DecidableEq

/-- The `defaults` dict of `PlanLimits._resolve_limits` (free tier). -/
def freeDefaults : PlanLimitsRec :=
  { tier := "free"
    max_participants := 4
    max_meeting_duration_minutes := 30
    breakout_rooms := false
    recording_enabled := false }

/-- `PlanLimits._resolve_limits`: cached value wins; otherwise the free
defaults unless PayU billing is enabled and an active subscription is found,
in which case the subscription plan's limits are used.  The subscription
lookup is `Option (Bool × PlanLimitsRec)`: `none` when the query raises,
otherwise the pair (is_active_subscription, plan limits). -/
def resolveLimits (cached : Option PlanLimitsRec) (payuEnabled : Bool)
    (subscription : Option (Bool × PlanLimitsRec)) : PlanLimitsRec :=
  match cached with
  | some l => l
  | none =>
    if payuEnabled then
      match subscription with
      | some (active, plan) => if active then plan else freeDefaults
      | none => freeDefaults
    else freeDefaults

/-- Limits of a paid plan with the breakout entitlement, as
`_resolve_limits` would return them from an active Business subscription
(`billing/migrations/0002_seed_plans.py` seeds this tier with breakout rooms
enabled). -/
def businessPlan : PlanLimitsRec :=
  { tier := "business"
    max_participants := 200
    max_meeting_duration_minutes := -1
    breakout_rooms := true
    recording_enabled := true }

/-- `PlanLimits.get_duration_limit_seconds`: `none` for unlimited
(`max_meeting_duration_minutes == -1`), otherwise minutes × 60. -/
def getDurationLimitSeconds (l : PlanLimitsRec) : Option Int :=
  if l.max_meeting_duration_minutes = -1 then none
  else some (l.max_meeting_duration_minutes * 60)

/-- What the signaling consumer reads from the relational store about one room:
whether it resolves (Meeting or PersonalRoom), its owner/author id (the
moderator identity) and the owning organization's plan limits (`none` when the
room has no organization). -/
structure RoomRec where
  ownerId : String
  orgLimits : Option PlanLimitsRec
  deriving Repr, DecidableEq

/-- Fallback constant `MAX_ROOM_CONNECTIONS_FALLBACK` in `consumers.py`. -/
def MAX_ROOM_CONNECTIONS_FALLBACK : Nat := 500

/-- Constant `MAX_MESSAGE_SIZE` in `consumers.py` (64 KiB). -/
def MAX_MESSAGE_SIZE : Nat := 65536

/-- `RoomConsumer._get_room_participant_limit`: the org plan's
`max_participants`, or the 500 fallback when the room has no organization. -/
def getRoomParticipantLimit (room : Option RoomRec) : Nat :=
  match room with
  | some r =>
    match r.orgLimits with
    | some l => l.max_participants
    | none => MAX_ROOM_CONNECTIONS_FALLBACK
  | none => MAX_ROOM_CONNECTIONS_FALLBACK

/-- `RoomConsumer._get_duration_limit`: seconds, `none` for unlimited or no org. -/
def getDurationLimit (room : Option RoomRec) : Option Int :=
  match room with
  | some r =>
    match r.orgLimits with
    | some l => getDurationLimitSeconds l
    | none => none
  | none => none

/-! ### The Redis room-count key (`ws:room:count:{room_id}`)

`none` models an absent key.  `cache.incr` raises `ValueError` on an absent
key, which `connect` catches by `cache.set(key, 1)`; `cache.decr` on an absent
key raises, which the callers swallow. -/

/-- The increment performed by `connect` (incr, or set-to-1 when the key is
absent); returns the new cache value and the count the code observes. -/
def roomCountIncr : Option Nat → Option Nat × Nat
  | none => (some 1, 1)
  | some v => (some (v + 1), v + 1)

/-- `cache.decr` as used inside `connect`'s capacity-rejection branch
(no delete-on-zero there); absent key: `ValueError` swallowed, no change. -/
def roomCountDecr : Option Nat → Option Nat
  | none => none
  | some v => some (v - 1)

/-- The decrement performed by `disconnect`: `cache.decr`, then the key is
deleted when the new value is ≤ 0; absent key: exception swallowed. -/
def disconnectDecr : Option Nat → Option Nat
  | none => none
  | some v => if v - 1 = 0 then none else some (v - 1)

/-- A room-count state the code can actually produce: the key, when present,
holds a positive value (the code deletes it as soon as it reaches 0). -/
def CountWF (st : Option Nat) : Prop := st ≠ some 0

instance (st : Option Nat) : Decidable (CountWF st) := by
  unfold CountWF; infer_instance

/-! ### Observable actions of the consumer handlers -/

/-- A group event as passed to `channel_layer.group_send`: its handler name
(`type`) plus the fields the message senders read.  Absent dict keys are
`none`. -/
structure GroupEvent where
  type_ : String
  user_id : Option String := none
  username : Option String := none
  message : Option String := none
  moderator_id : Option String := none
  target_user_id : Option String := none
  approved : Option Bool := none
  is_muted : Option Bool := none
  is_moderator : Option Bool := none
  room_id : Option String := none
  breakout_id : Option String := none
  breakout_name : Option String := none
  main_room_id : Option String := none
  minutes_remaining : Option Int := none
  roomsCreated : List (String × String) := []
  sender_channel : Option String := none
  deriving Repr, DecidableEq

/-- One observable side effect of a handler. -/
inductive Action where
  /-- a `logger.*` call -/
  | log
  /-- `self.send(...)` back on this socket; the string is the out-frame `type` -/
  | sendSelf (type_ : String)
  /-- `channel_layer.group_send(group, event)` -/
  | groupSend (group : String) (ev : GroupEvent)
  /-- `channel_layer.group_add(group, self.channel_name)` -/
  | groupAdd (group : String)
  /-- `channel_layer.group_discard(group, self.channel_name)` -/
  | groupDiscard (group : String)
  /-- `cache.set(key, value)` -/
  | cacheSet (key value : String)
  /-- `cache.delete(key)` -/
  | cacheDelete (key : String)
  /-- `create_meeting_packet.delay(user_id, room_id)` -/
  | scheduleTask (userId roomId : String)
  /-- `BreakoutRoom.objects.create(...)` for one name -/
  | createBreakout (name : String)
  /-- the bulk `update(is_active=False, closed_at=now)` of `_close_breakout_rooms_db` -/
  | closeBreakoutsDb
  /-- `self.close(code)` -/
  | close (code : Nat)
  /-- `self.accept()` -/
  | accept
  /-- `asyncio.ensure_future(self._check_duration_limit(limit))` -/
  | spawnWatchdog (limitSeconds : Int)
  deriving Repr, DecidableEq

/-- Python `str(x)` on an optional string (`str(None) = "None"`). -/
def pyStr : Option String → String
  | none => "None"
  | some s => s

/-- Python `s.startswith(pre)`, computed over the character lists. -/
def pyStartswith (s pre : String) : Bool :=
  List.isPrefixOf pre.toList s.toList

/-! ### `RoomConsumer.connect` -/

/-- Result of a connection attempt, as the client observes it. -/
inductive ConnectOutcome where
  | closed (code : Nat)
  | accepted
  deriving Repr, DecidableEq

/-- State of the per-room Redis keys consulted by `connect`/`disconnect`:
the participant counter and the session-clock start key
(`ws:room:start:{room_id}`, holding the start timestamp). -/
structure RoomCacheState where
  count : Option Nat
  start : Option Int
  deriving Repr, DecidableEq

/-- `RoomConsumer.connect` (lines 20–75 of `consumers.py`), for a connection
arriving at time `now` on room `roomId`.  `room` is what the store returns for
the route's room id (`none` when neither a Meeting nor a PersonalRoom
matches).  Returns the actions performed, the outcome, and the updated cache
state. -/
def connect (roomId : String) (room : Option RoomRec) (st : RoomCacheState)
    (now : Int) : List Action × ConnectOutcome × RoomCacheState :=
  -- `_check_room_access` is `room_exists` (guests and authenticated users alike)
  if room.isNone then
    ([Action.log, Action.close 4004], ConnectOutcome.closed 4004, st)
  else
    let maxParticipants := getRoomParticipantLimit room
    let (count', count) := roomCountIncr st.count
    if count > maxParticipants then
      ([Action.log, Action.close 4029], ConnectOutcome.closed 4029,
        { st with count := roomCountDecr count' })
    else
      let st1 : RoomCacheState := { st with count := count' }
      let base := [Action.groupAdd ("room_" ++ roomId), Action.accept]
      match getDurationLimit room with
      | none => (base, ConnectOutcome.accepted, st1)
      | some limit =>
        -- `cache.set(start_key, time.time(), duration_limit + 300)` only if unset,
        -- then always spawn the duration-check task
        let st2 : RoomCacheState :=
          if st1.start.isNone then { st1 with start := some now } else st1
        (base ++ [Action.spawnWatchdog limit], ConnectOutcome.accepted, st2)

/-- `RoomConsumer.disconnect` (lines 196–225): effect on the room counter
(`cache.decr`, delete at zero; the group_discard and the user-disconnected
broadcast do not touch the counter). -/
def disconnectCount (st : RoomCacheState) : RoomCacheState :=
  { st with count := disconnectDecr st.count }

/-! ### Inbound payloads and the handler context -/

/-- The `data` object of an inbound signaling frame; every key the handlers
read, `none` when absent.  JSON values are modelled as strings/booleans. -/
structure Payload where
  user_id : Option String := none
  username : Option String := none
  message : Option String := none
  is_moderator : Option Bool := none
  is_muted : Option Bool := none
  author_id : Option String := none
  requesting_user_id : Option String := none
  approved : Option Bool := none
  moderatorId : Option String := none
  moderator_id : Option String := none
  targetUserId : Option String := none
  rooms : Option (List String) := none
  breakout_id : Option String := none
  breakout_name : Option String := none
  deriving Repr, DecidableEq

/-- A parsed inbound frame: the `type` key and the `data` object. -/
structure InMsg where
  type_ : Option String := none
  data : Payload := {}
  deriving Repr, DecidableEq

/-- The immutable identity of one `RoomConsumer` instance. -/
structure Consumer where
  room_id : String
  channel_name : String
  deriving Repr, DecidableEq

/-- The external collaborators visible to the handlers: the store's record for
this consumer's room (`none` when the room id resolves to nothing). -/
structure Env where
  room : Option RoomRec
  deriving Repr, DecidableEq

/-- Mutable per-connection / shared-cache state the handlers read and write:
`self.user_id`, and the Redis breakout-assignment entries for this room
(`breakout:assignment:ROOM:USER`, keyed here by the user part). -/
structure HState where
  user_id : Option String
  assignment : String → Option String

/-- `RoomConsumer._is_moderator`: false for a missing/empty id, otherwise the
claimed id must equal the room's persisted owner (PersonalRoom.user) or
author (Meeting.author), compared as strings. -/
def isModerator (room : Option RoomRec) (user_id : Option String) : Bool :=
  match user_id with
  | none => false
  | some u =>
    if u = "" then false
    else
      match room with
      | some r => r.ownerId = u
      | none => false

/-- `RoomConsumer._can_use_breakout_rooms`: the org plan's `breakout_rooms`
flag; false when the room or its organization is missing. -/
def canUseBreakoutRooms (room : Option RoomRec) : Bool :=
  match room with
  | some r =>
    match r.orgLimits with
    | some l => l.breakout_rooms
    | none => false
  | none => false

/-- `html.escape` on one character (`&`, `<`, `>`, `"`, the apostrophe). -/
def htmlEscapeChar (c : Char) : String :=
  if c.toNat = 38 then "&amp;"
  else if c.toNat = 60 then "&lt;"
  else if c.toNat = 62 then "&gt;"
  else if c.toNat = 34 then "&quot;"
  else if c.toNat = 39 then "&#x27;"
  else String.singleton c

/-- `html.escape` over a string. -/
def htmlEscape (s : String) : String := String.join (s.toList.map htmlEscapeChar)

/-! ### `RoomConsumer` event handlers (lines 293–872)

Each handler maps to the actions it performs and the updated `HState`.
`c.room_id` renders the group names exactly as the f-strings do. -/

/-- `handle_join_room`: stores the claimed user id, broadcasts `new_user_joined`. -/
def handle_join_room (p : Payload) (c : Consumer) (st : HState) :
    List Action × HState :=
  ([Action.groupSend ("room_" ++ c.room_id)
      { type_ := "new_user_joined"
        user_id := p.user_id
        username := some (p.username.getD "")
        is_moderator := some (p.is_moderator.getD false)
        sender_channel := some c.channel_name }],
   { st with user_id := p.user_id })

/-- `handle_video_off`. -/
def handle_video_off (p : Payload) (c : Consumer) (st : HState) :
    List Action × HState :=
  ([Action.groupSend ("room_" ++ c.room_id)
      { type_ := "video_off"
        user_id := p.user_id <|> st.user_id
        sender_channel := some c.channel_name }], st)

/-- `handle_video_on`. -/
def handle_video_on (p : Payload) (c : Consumer) (st : HState) :
    List Action × HState :=
  ([Action.groupSend ("room_" ++ c.room_id)
      { type_ := "video_on"
        user_id := p.user_id <|> st.user_id
        sender_channel := some c.channel_name }], st)

/-- `handle_screen_share_off`. -/
def handle_screen_share_off (p : Payload) (c : Consumer) (st : HState) :
    List Action × HState :=
  ([Action.groupSend ("room_" ++ c.room_id)
      { type_ := "screen_share_off"
        user_id := p.user_id <|> st.user_id
        sender_channel := some c.channel_name }], st)

/-- `handle_new_chat`: truncates to 2000 chars and HTML-escapes the message,
escapes and truncates the username to 50 chars, then broadcasts. -/
def handle_new_chat (p : Payload) (c : Consumer) (st : HState) :
    List Action × HState :=
  let raw := p.message.getD ""
  let sanitized := if raw = "" then "" else htmlEscape (raw.take 2000)
  ([Action.groupSend ("room_" ++ c.room_id)
      { type_ := "new_message"
        message := some sanitized
        user_id := p.user_id <|> st.user_id
        username := some (htmlEscape ((p.username.getD "").take 50))
        sender_channel := some c.channel_name }], st)

/-- `handle_recording_started`. -/
def handle_recording_started (p : Payload) (c : Consumer) (st : HState) :
    List Action × HState :=
  ([Action.groupSend ("room_" ++ c.room_id)
      { type_ := "recording_started"
        user_id := p.user_id <|> st.user_id
        sender_channel := some c.channel_name }], st)

/-- `handle_recording_stopped`. -/
def handle_recording_stopped (p : Payload) (c : Consumer) (st : HState) :
    List Action × HState :=
  ([Action.groupSend ("room_" ++ c.room_id)
      { type_ := "recording_stopped"
        user_id := p.user_id <|> st.user_id
        sender_channel := some c.channel_name }], st)

/-- `handle_alert`: forwards a waiting user's join request to the host's user
channel and, additionally, into the room group. -/
def handle_alert (p : Payload) (c : Consumer) (st : HState) :
    List Action × HState :=
  ([Action.groupSend ("user_" ++ pyStr p.author_id)
      { type_ := "alert_request"
        user_id := p.user_id
        username := p.username
        room_id := some c.room_id },
    Action.groupSend ("room_" ++ c.room_id)
      { type_ := "join_request"
        user_id := p.user_id
        username := p.username }], st)

/-- `handle_alert_response`: on a truthy `approved`, first dispatches the
`create_meeting_packet` Celery task, then relays the decision to the
requesting user's channel and to the room group. -/
def handle_alert_response (p : Payload) (c : Consumer) (st : HState) :
    List Action × HState :=
  let relay :=
    [Action.groupSend ("user_" ++ pyStr p.requesting_user_id)
       { type_ := "alert_response"
         approved := p.approved
         room_id := some c.room_id },
     Action.groupSend ("room_" ++ c.room_id)
       { type_ := "join_response"
         user_id := p.requesting_user_id
         approved := p.approved }]
  if p.approved = some true then
    (Action.log ::
       Action.scheduleTask (pyStr p.requesting_user_id) c.room_id :: relay, st)
  else
    (Action.log :: relay, st)

/-- `handle_mute_status`. -/
def handle_mute_status (p : Payload) (c : Consumer) (st : HState) :
    List Action × HState :=
  ([Action.groupSend ("room_" ++ c.room_id)
      { type_ := "user_mute_status"
        user_id := p.user_id <|> st.user_id
        is_muted := some (p.is_muted.getD false)
        sender_channel := some c.channel_name }], st)

/-- `handle_mute_all`. -/
def handle_mute_all (p : Payload) (c : Consumer) (st : HState) :
    List Action × HState :=
  ([Action.groupSend ("room_" ++ c.room_id)
      { type_ := "mute_all"
        moderator_id := p.moderatorId
        sender_channel := some c.channel_name }], st)

/-- `handle_kick_user`: kick notice to the target's user channel, plus a
room-wide `user_kicked` broadcast. -/
def handle_kick_user (p : Payload) (c : Consumer) (st : HState) :
    List Action × HState :=
  ([Action.groupSend ("user_" ++ pyStr p.targetUserId)
      { type_ := "kicked"
        moderator_id := p.moderatorId },
    Action.groupSend ("room_" ++ c.room_id)
      { type_ := "user_kicked"
        target_user_id := p.targetUserId
        moderator_id := p.moderatorId
        sender_channel := some c.channel_name }], st)

/-- `handle_share_info`. -/
def handle_share_info (p : Payload) (c : Consumer) (st : HState) :
    List Action × HState :=
  ([Action.groupSend ("room_" ++ c.room_id)
      { type_ := "share_info"
        user_id := p.user_id
        username := p.username
        is_moderator := some (p.is_moderator.getD false)
        sender_channel := some c.channel_name }], st)

/-- `handle_request_info`. -/
def handle_request_info (_p : Payload) (c : Consumer) (st : HState) :
    List Action × HState :=
  ([Action.groupSend ("room_" ++ c.room_id)
      { type_ := "request_info"
        sender_channel := some c.channel_name }], st)

/-- `handle_end_meeting`. -/
def handle_end_meeting (p : Payload) (c : Consumer) (st : HState) :
    List Action × HState :=
  ([Action.log,
    Action.groupSend ("room_" ++ c.room_id)
      { type_ := "meeting_ended"
        moderator_id := p.moderator_id
        sender_channel := some c.channel_name }], st)

/-- Deterministic stand-in for the UUID `room_id` the database generates for
the i-th created breakout room. -/
def mkBreakoutId (i : Nat) : String := "bk-" ++ toString i

/-- `handle_create_breakout`: moderator check, then plan-entitlement check,
then a cap of 10 names; creates each room in the DB, mirrors each into the
cache, and broadcasts `breakout_rooms_created`. -/
def handle_create_breakout (p : Payload) (env : Env) (c : Consumer)
    (st : HState) : List Action × HState :=
  if ¬ isModerator env.room p.moderator_id then
    ([Action.sendSelf "breakout-error"], st)
  else if ¬ canUseBreakoutRooms env.room then
    ([Action.sendSelf "breakout-error"], st)
  else
    let rooms := p.rooms.getD []
    if rooms.length > 10 then
      ([Action.sendSelf "breakout-error"], st)
    else
      -- `_create_breakout_room_db` returns an id iff the parent room resolves;
      -- under a passed moderator check the parent always resolves.
      let created := (rooms.enum).map (fun ni => (ni.2, mkBreakoutId ni.1))
      let createActs := created.flatMap (fun nid =>
        [Action.createBreakout nid.1,
         Action.cacheSet ("breakout:rooms:" ++ c.room_id ++ ":" ++ nid.2) nid.1])
      (createActs ++
        [Action.log,
         Action.groupSend ("room_" ++ c.room_id)
           { type_ := "breakout_rooms_created"
             roomsCreated := created
             moderator_id := p.moderator_id
             sender_channel := some c.channel_name }], st)

/-- `handle_assign_to_breakout`: moderator check only (no plan check); stores
the `(room, user) → breakout` mapping in the cache, notifies the assigned
user's channel and the room group. -/
def handle_assign_to_breakout (p : Payload) (env : Env) (c : Consumer)
    (st : HState) : List Action × HState :=
  if ¬ isModerator env.room p.moderator_id then
    ([Action.sendSelf "breakout-error"], st)
  else
    let target := pyStr p.user_id
    ([Action.cacheSet ("breakout:assignment:" ++ c.room_id ++ ":" ++ target)
        (pyStr p.breakout_id),
      Action.log,
      Action.groupSend ("user_" ++ target)
        { type_ := "breakout_assigned"
          breakout_id := p.breakout_id
          breakout_name := some (p.breakout_name.getD "")
          main_room_id := some c.room_id },
      Action.groupSend ("room_" ++ c.room_id)
        { type_ := "user_assigned_breakout"
          user_id := p.user_id
          breakout_id := p.breakout_id
          breakout_name := some (p.breakout_name.getD "")
          sender_channel := some c.channel_name }],
     { st with assignment := fun u => if u = target then p.breakout_id else st.assignment u })

/-- `handle_join_breakout`: plan-entitlement check, then the stored assignment
for the claimed user must equal the requested breakout id; only then is the
channel added to the breakout group. -/
def handle_join_breakout (p : Payload) (env : Env) (c : Consumer)
    (st : HState) : List Action × HState :=
  if ¬ canUseBreakoutRooms env.room then
    ([Action.sendSelf "breakout-error"], st)
  else
    let uid := p.user_id <|> st.user_id
    if st.assignment (pyStr uid) ≠ p.breakout_id then
      ([Action.sendSelf "breakout-error"], st)
    else
      let bgroup := "breakout_" ++ pyStr p.breakout_id
      ([Action.groupAdd bgroup,
        Action.log,
        Action.groupSend bgroup
          { type_ := "breakout_user_joined"
            user_id := uid
            username := some (p.username.getD "")
            breakout_id := p.breakout_id
            sender_channel := some c.channel_name },
        Action.groupSend ("room_" ++ c.room_id)
          { type_ := "user_moved_to_breakout"
            user_id := uid
            breakout_id := p.breakout_id
            sender_channel := some c.channel_name }], st)

/-- `handle_return_to_main`: leaves the breakout group, deletes the stored
assignment, notifies the breakout group and the main room. -/
def handle_return_to_main (p : Payload) (c : Consumer) (st : HState) :
    List Action × HState :=
  let uid := p.user_id <|> st.user_id
  let bgroup := "breakout_" ++ pyStr p.breakout_id
  ([Action.groupDiscard bgroup,
    Action.cacheDelete ("breakout:assignment:" ++ c.room_id ++ ":" ++ pyStr uid),
    Action.log,
    Action.groupSend bgroup
      { type_ := "breakout_user_left"
        user_id := uid
        breakout_id := p.breakout_id },
    Action.groupSend ("room_" ++ c.room_id)
      { type_ := "user_returned_from_breakout"
        user_id := uid
        username := some (p.username.getD "")
        breakout_id := p.breakout_id
        sender_channel := some c.channel_name }],
   { st with assignment := fun u => if u = pyStr uid then none else st.assignment u })

/-- `handle_close_breakouts`: moderator check only (no plan check); bulk
deactivates every active breakout of the parent room, then broadcasts. -/
def handle_close_breakouts (p : Payload) (env : Env) (c : Consumer)
    (st : HState) : List Action × HState :=
  if ¬ isModerator env.room p.moderator_id then
    ([Action.sendSelf "breakout-error"], st)
  else
    ([Action.closeBreakoutsDb,
      Action.log,
      Action.groupSend ("room_" ++ c.room_id)
        { type_ := "breakouts_closed"
          moderator_id := p.moderator_id
          sender_channel := some c.channel_name }], st)

/-- `handle_broadcast_to_breakouts`: moderator check, then a room-wide
`breakout_broadcast`. -/
def handle_broadcast_to_breakouts (p : Payload) (env : Env) (c : Consumer)
    (st : HState) : List Action × HState :=
  if ¬ isModerator env.room p.moderator_id then
    ([Action.sendSelf "breakout-error"], st)
  else
    ([Action.groupSend ("room_" ++ c.room_id)
        { type_ := "breakout_broadcast"
          message := some (p.message.getD "")
          moderator_id := p.moderator_id
          sender_channel := some c.channel_name }], st)

/-! ### `RoomConsumer.receive` (lines 227–290) -/

/-- The event-type strings `receive` dispatches on (including the `ping`
heartbeat). -/
def knownEventTypes : List String :=
  ["ping", "join-room", "video-off", "on-the-video", "screen-share-off",
   "new-chat", "recording-started", "recording-stopped", "alert",
   "alert-response", "mute-status", "mute-all", "kick-user", "share-info",
   "request-info", "end-meeting", "create-breakout", "assign-to-breakout",
   "join-breakout", "return-to-main", "close-breakouts",
   "broadcast-to-breakouts"]

/-- The if/elif dispatch chain of `RoomConsumer.receive` over the parsed
frame's `type` value `t` and `data` object `p`: `ping` is answered with
`pong` directly on the socket; known event types go to their handler; any
other type falls through and is dropped without logging. -/
def dispatchEvent (t : Option String) (p : Payload) (env : Env) (c : Consumer)
    (st : HState) : List Action × HState :=
  if t = some "ping" then ([Action.sendSelf "pong"], st)
      else if t = some "join-room" then handle_join_room p c st
      else if t = some "video-off" then handle_video_off p c st
      else if t = some "on-the-video" then handle_video_on p c st
      else if t = some "screen-share-off" then handle_screen_share_off p c st
      else if t = some "new-chat" then handle_new_chat p c st
      else if t = some "recording-started" then handle_recording_started p c st
      else if t = some "recording-stopped" then handle_recording_stopped p c st
      else if t = some "alert" then handle_alert p c st
      else if t = some "alert-response" then handle_alert_response p c st
      else if t = some "mute-status" then handle_mute_status p c st
      else if t = some "mute-all" then handle_mute_all p c st
      else if t = some "kick-user" then handle_kick_user p c st
      else if t = some "share-info" then handle_share_info p c st
      else if t = some "request-info" then handle_request_info p c st
      else if t = some "end-meeting" then handle_end_meeting p c st
      else if t = some "create-breakout" then handle_create_breakout p env c st
      else if t = some "assign-to-breakout" then handle_assign_to_breakout p env c st
      else if t = some "join-breakout" then handle_join_breakout p env c st
      else if t = some "return-to-main" then handle_return_to_main p c st
      else if t = some "close-breakouts" then handle_close_breakouts p env c st
  else if t = some "broadcast-to-breakouts" then handle_broadcast_to_breakouts p env c st
  else ([], st)

/-- `RoomConsumer.receive`: frames longer than `MAX_MESSAGE_SIZE` are logged
and dropped before parsing; unparseable frames (JSONDecodeError) are logged
and dropped; otherwise the frame's `type` and `data` go through the dispatch
chain.  `length` is the byte length of the inbound text and `parsed` its JSON
parse (`none` = invalid JSON). -/
def receive (length : Nat) (parsed : Option InMsg) (env : Env) (c : Consumer)
    (st : HState) : List Action × HState :=
  if length > MAX_MESSAGE_SIZE then ([Action.log], st)
  else
    match parsed with
    | none => ([Action.log], st)
    | some msg => dispatchEvent msg.type_ msg.data env c st

/-! ### Group-message senders (lines 874–1091)

`deliverRoomEvent selfCh ev` is what one subscribed `RoomConsumer` whose
channel name is `selfCh` does when the channel layer hands it `ev`: `some s`
means it sends a frame of out-type `s` to its client, `none` means it sends
nothing.  Senders that guard against echo compare `self.channel_name` with
`event['sender_channel']`; the others send unconditionally. -/
def deliverRoomEvent (selfCh : String) (ev : GroupEvent) : Option String :=
  if ev.type_ = "new_user_joined" then
    if ev.sender_channel ≠ some selfCh then some "newuserjoined" else none
  else if ev.type_ = "user_disconnected" then some "user-disconnected"
  else if ev.type_ = "video_off" then
    if ev.sender_channel ≠ some selfCh then some "off-the-video" else none
  else if ev.type_ = "video_on" then
    if ev.sender_channel ≠ some selfCh then some "on-the-video" else none
  else if ev.type_ = "screen_share_off" then
    if ev.sender_channel ≠ some selfCh then some "screen-share-off" else none
  else if ev.type_ = "new_message" then
    if ev.sender_channel ≠ some selfCh then some "newmessage" else none
  else if ev.type_ = "recording_started" then
    if ev.sender_channel ≠ some selfCh then some "recording-started" else none
  else if ev.type_ = "recording_stopped" then
    if ev.sender_channel ≠ some selfCh then some "recording-stopped" else none
  else if ev.type_ = "alert_request" then some "alert"
  else if ev.type_ = "alert_response" then some "alert-response"
  else if ev.type_ = "join_request" then some "join-request"
  else if ev.type_ = "join_response" then some "join-response"
  else if ev.type_ = "user_mute_status" then some "user-mute-status"
  else if ev.type_ = "mute_all" then
    if ev.sender_channel ≠ some selfCh then some "mute-all" else none
  else if ev.type_ = "kicked" then some "kicked"
  else if ev.type_ = "user_kicked" then some "user-kicked"
  else if ev.type_ = "share_info" then
    if ev.sender_channel ≠ some selfCh then some "share-info" else none
  else if ev.type_ = "request_info" then
    if ev.sender_channel ≠ some selfCh then some "request-info" else none
  else if ev.type_ = "meeting_ended" then
    if ev.sender_channel ≠ some selfCh then some "meeting-ended" else none
  else if ev.type_ = "duration_warning" then some "duration-warning"
  else if ev.type_ = "meeting_duration_exceeded" then some "meeting-duration-exceeded"
  else if ev.type_ = "breakout_rooms_created" then some "breakout-rooms-created"
  else if ev.type_ = "breakout_assigned" then some "breakout-assigned"
  else if ev.type_ = "user_assigned_breakout" then some "user-assigned-breakout"
  else if ev.type_ = "breakout_user_joined" then
    if ev.sender_channel ≠ some selfCh then some "breakout-user-joined" else none
  else if ev.type_ = "user_moved_to_breakout" then some "user-moved-to-breakout"
  else if ev.type_ = "breakout_user_left" then some "breakout-user-left"
  else if ev.type_ = "user_returned_from_breakout" then some "user-returned-from-breakout"
  else if ev.type_ = "breakouts_closed" then some "breakouts-closed"
  else if ev.type_ = "breakout_broadcast" then some "breakout-broadcast"
  else none

/-- Every handler name the `RoomConsumer` message-sender methods implement
(lines 874–1091): the complete catalogue of group events a subscribed
connection can receive from the channel layer. -/
def groupHandlerTypes : List String :=
  ["new_user_joined", "user_disconnected", "video_off", "video_on",
   "screen_share_off", "new_message", "recording_started", "recording_stopped",
   "alert_request", "alert_response", "join_request", "join_response",
   "user_mute_status", "mute_all", "kicked", "user_kicked", "share_info",
   "request_info", "meeting_ended", "duration_warning",
   "meeting_duration_exceeded", "breakout_rooms_created", "breakout_assigned",
   "user_assigned_breakout", "breakout_user_joined", "user_moved_to_breakout",
   "breakout_user_left", "user_returned_from_breakout", "breakouts_closed",
   "breakout_broadcast"]

/-- The handler names whose sender method delivers back to the originating
channel (no `sender_channel` comparison in the method body). -/
def echoingEventTypes : List String :=
  ["user_disconnected", "alert_request", "alert_response", "join_request",
   "join_response", "user_mute_status", "kicked", "user_kicked",
   "duration_warning", "meeting_duration_exceeded", "breakout_rooms_created",
   "breakout_assigned", "user_assigned_breakout", "user_moved_to_breakout",
   "breakout_user_left", "user_returned_from_breakout", "breakouts_closed",
   "breakout_broadcast"]

/-! ### `UserConsumer` (lines 1094–1144) -/

/-- `UserConsumer.receive`: oversized frames return silently; invalid JSON is
swallowed; `ping` gets a `pong`; a `register` frame subscribes the socket to
the notification group of the supplied id only when that id is truthy and
starts with `guest_`.  `reg` is the currently registered identity
(`self.user_id`); returns the actions and the new registered identity. -/
def userReceive (length : Nat) (parsed : Option InMsg) (reg : Option String) :
    List Action × Option String :=
  if length > MAX_MESSAGE_SIZE then ([], reg)
  else
    match parsed with
    | none => ([], reg)
    | some msg =>
      if msg.type_ = some "ping" then ([Action.sendSelf "pong"], reg)
      else if msg.type_ = some "register" then
        match msg.data.user_id with
        | none => ([], reg)
        | some g =>
          if g ≠ "" ∧ pyStartswith g "guest_" then
            ([Action.groupAdd ("user_" ++ g), Action.log,
              Action.sendSelf "registered"], some g)
          else ([], reg)
      else ([], reg)

/-! ### The duration watchdog (`RoomConsumer._check_duration_limit`, lines 159–194)

One loop iteration: sleep 60 s, read the room's start timestamp, compute
`elapsed` and `remaining`, emit a warning when `240 < remaining <= 300`, emit
the terminal event and stop when `elapsed >= limit`.  The model assumes the
session-clock key stays readable (its TTL is `limit + 300` seconds) and polls
at exact 60-second steps: `watchdogRun limit elapsed fuel` is the event
sequence of a task whose next poll observes elapsed time `elapsed`, running
for at most `fuel` further polls. -/

/-- An event the watchdog broadcasts to the room group. -/
inductive WatchdogEvent where
  | warning (minutes : Int)
  | exceeded
  deriving Repr, DecidableEq

/-- The warning broadcast of one poll observing elapsed time `elapsed`:
fires iff `240 < remaining <= 300`, carrying `int(remaining / 60)` minutes. -/
def watchdogWarn (limit elapsed : Int) : List WatchdogEvent :=
  if 240 < limit - elapsed ∧ limit - elapsed ≤ 300 then
    [WatchdogEvent.warning ((limit - elapsed) / 60)]
  else []

/-- The watchdog polling loop (see section comment above): each poll first
evaluates the warning window, then the terminal check, which either ends the
loop with the duration-exceeded broadcast or continues to the next poll. -/
def watchdogRun (limit : Int) : Int → Nat → List WatchdogEvent
  | _, 0 => []
  | elapsed, fuel + 1 =>
    watchdogWarn limit elapsed ++
      (if elapsed ≥ limit then [WatchdogEvent.exceeded]
       else watchdogRun limit (elapsed + 60) fuel)

/-- Number of warning events in a watchdog event sequence. -/
def countWarnings (l : List WatchdogEvent) : Nat :=
  l.countP (fun e => match e with | WatchdogEvent.warning _ => true | _ => false)

/-- Number of terminal duration-exceeded events in a watchdog event sequence. -/
def countExceeded (l : List WatchdogEvent) : Nat :=
  l.countP (fun e => match e with | WatchdogEvent.exceeded => true | _ => false)

/-! ### `mark_guest_approved_view` (`meetings/views.py` lines 668–706) and
`create_meeting_packet` (`meetings/tasks.py`) -/

/-- The pending-approval keys of a visitor's HTTP session, plus the set of
rooms the session has been approved for (`approved_for_ROOM = True`). -/
structure GuestSession where
  pending_room_id : Option String := none
  pending_author_id : Option String := none
  pending_user_id : Option String := none
  pending_username : Option String := none
  pending_token : Option String := none
  pending_is_scheduled : Option String := none
  approvedRooms : List String := []
  deriving Repr, DecidableEq

/-- Outcome of `mark_guest_approved_view`, one per return statement. -/
inductive MarkGuestResult where
  /-- 404, room unknown -/
  | notFound
  /-- 403, the session's `pending_room_id` does not match the URL room -/
  | invalidRequest
  /-- 403, no `room_approval:ROOM:USER` record in the shared cache -/
  | approvalNotFound
  /-- 200, session marked approved -/
  | success
  deriving Repr, DecidableEq

/-- `mark_guest_approved_view`.  `approvals` is the set of
`room_approval:ROOM:USER` records present in the shared cache (a truthy cached
value = membership); `authUser` is `request.user.id` when authenticated.
Returns the HTTP outcome, the updated session, and the updated record set. -/
def mark_guest_approved (roomExists : Bool) (authUser : Option String)
    (sess : GuestSession) (approvals : List (String × String))
    (room_id : String) :
    MarkGuestResult × GuestSession × List (String × String) :=
  if ¬ roomExists then (MarkGuestResult.notFound, sess, approvals)
  else if pyStr sess.pending_room_id ≠ room_id then
    (MarkGuestResult.invalidRequest, sess, approvals)
  else
    let user_id :=
      match authUser with
      | some u => u
      | none => sess.pending_user_id.getD ""
    if (room_id, user_id) ∉ approvals then
      (MarkGuestResult.approvalNotFound, sess, approvals)
    else
      (MarkGuestResult.success,
       { pending_room_id := none
         pending_author_id := none
         pending_user_id := none
         pending_username := none
         pending_token := none
         pending_is_scheduled := none
         approvedRooms := room_id :: sess.approvedRooms },
       approvals.filter (fun rec => rec ≠ (room_id, user_id)))

/-! ## Helper lemmas -/

/-- An admitted connection's final counter is the incremented one, and the
outcome is `accepted`. -/
theorem connect_accept_count (roomId : String) (r : RoomRec) (st : RoomCacheState)
    (now : Int) (hadm : (roomCountIncr st.count).2 ≤ getRoomParticipantLimit (some r)) :
    (connect roomId (some r) st now).2.1 = ConnectOutcome.accepted ∧
    (connect roomId (some r) st now).2.2.count = (roomCountIncr st.count).1 := by
  unfold connect
  simp only [Option.isNone_some, Bool.false_eq_true, if_false]
  have hnb : ¬ (roomCountIncr st.count).2 > getRoomParticipantLimit (some r) := by omega
  simp only [hnb, if_false]
  rcases hdl : getDurationLimit (some r) with _ | limit
  · simp [hdl]
  · rcases hst : st.start <;> simp [hdl, hst]

/-- The `disconnect` decrement exactly undoes the `connect` increment on any
counter state the code can produce. -/
theorem disconnect_undoes_incr (st : Option Nat) (h : CountWF st) :
    disconnectDecr (roomCountIncr st).1 = st := by
  rcases st with _ | v
  · rfl
  · have hv : v ≠ 0 := by simpa [CountWF] using h
    simp [roomCountIncr, disconnectDecr]
    omega

/-! ## Claim theorems -/

/-- C1: a connection attempt whose post-increment count exceeds the plan's
participant limit is closed with code 4029 and the counter is decremented
back to its pre-attempt value; in particular a room sitting exactly at its
limit keeps its reservation at that limit. -/
theorem connect_capacity_rejection (roomId : String) (r : RoomRec)
    (st : RoomCacheState) (now : Int) (c : Nat) (hc : st.count = some c)
    (hge : getRoomParticipantLimit (some r) ≤ c) :
    connect roomId (some r) st now =
      ([Action.log, Action.close 4029], ConnectOutcome.closed 4029, st) := by
  unfold connect
  simp only [Option.isNone_some, Bool.false_eq_true, if_false]
  have hincr : roomCountIncr st.count = (some (c + 1), c + 1) := by rw [hc]; rfl
  rw [hincr]
  have hgt : c + 1 > getRoomParticipantLimit (some r) := by omega
  simp only [hgt, if_true]
  have hdecr : roomCountDecr (some (c + 1)) = some c := by
    simp [roomCountDecr]
  rw [hdecr]
  rcases st with ⟨cnt, start⟩
  simp_all

/-- Witness for C1: the spec's scenario — a Free-tier room (limit 4) at 4/4;
the 5th attempt is closed with 4029 and the reservation stays at 4. -/
theorem connect_capacity_rejection_witness :
    connect "abc-defg-hij" (some { ownerId := "owner-1", orgLimits := some freeDefaults })
        { count := some 4, start := none } 0 =
      ([Action.log, Action.close 4029], ConnectOutcome.closed 4029,
        { count := some 4, start := none }) :=
  connect_capacity_rejection "abc-defg-hij" _ _ 0 4 rfl (by decide)

/-- C3 counterexample: starting from a counter of 1 in a Free-tier room,
connect → disconnect → connect leaves the counter at 2, not at its
pre-sequence value 1 (the third connect holds a live slot). -/
theorem connect_disconnect_connect_counterexample :
    (connect "abc-defg-hij" (some { ownerId := "o1", orgLimits := some freeDefaults })
        (disconnectCount
          (connect "abc-defg-hij" (some { ownerId := "o1", orgLimits := some freeDefaults })
            { count := some 1, start := none } 0).2.2) 60).2.2.count ≠
      ({ count := some 1, start := none } : RoomCacheState).count := by
  decide

/-- C3 amended: a successful admission increments once and the matching
disconnect decrements exactly once, restoring the counter; hence
connect → disconnect → connect leaves the counter exactly where a single
successful connect leaves it (one live slot above the pre-sequence value),
and the full pair-wise sequence leaks nothing. -/
theorem connect_disconnect_balanced (roomId : String) (r : RoomRec)
    (st : RoomCacheState) (now now2 : Int) (hwf : CountWF st.count)
    (hadm : (roomCountIncr st.count).2 ≤ getRoomParticipantLimit (some r)) :
    (connect roomId (some r) st now).2.1 = ConnectOutcome.accepted ∧
    (disconnectCount (connect roomId (some r) st now).2.2).count = st.count ∧
    (connect roomId (some r)
        (disconnectCount (connect roomId (some r) st now).2.2) now2).2.2.count =
      (connect roomId (some r) st now).2.2.count := by
  obtain ⟨hacc, hcnt⟩ := connect_accept_count roomId r st now hadm
  have hdis : (disconnectCount (connect roomId (some r) st now).2.2).count = st.count := by
    simp [disconnectCount, hcnt, disconnect_undoes_incr st.count hwf]
  refine ⟨hacc, hdis, ?_⟩
  obtain ⟨_, hcnt2⟩ := connect_accept_count roomId r
    (disconnectCount (connect roomId (some r) st now).2.2) now2 (by rw [hdis]; exact hadm)
  rw [hcnt2, hdis, hcnt]

/-- Witness for C3 (amended): an empty Free-tier room; the first connect takes
the counter to 1, disconnect returns it to absent, the next connect takes it
to 1 again. -/
theorem connect_disconnect_balanced_witness :
    (connect "r-1" (some { ownerId := "o1", orgLimits := some freeDefaults })
        { count := none, start := none } 0).2.1 = ConnectOutcome.accepted ∧
    (disconnectCount (connect "r-1" (some { ownerId := "o1", orgLimits := some freeDefaults })
        { count := none, start := none } 0).2.2).count = none ∧
    (connect "r-1" (some { ownerId := "o1", orgLimits := some freeDefaults })
        (disconnectCount (connect "r-1" (some { ownerId := "o1", orgLimits := some freeDefaults })
          { count := none, start := none } 0).2.2) 60).2.2.count =
      (connect "r-1" (some { ownerId := "o1", orgLimits := some freeDefaults })
        { count := none, start := none } 0).2.2.count :=
  connect_disconnect_balanced "r-1" _ _ 0 60 (by decide) (by decide)

/-- C5: when the host approves (`approved` truthy), `handle_alert_response`
dispatches the persisted access-grant task (`create_meeting_packet.delay`)
strictly before relaying the decision to the requesting user's notification
channel and to the room group — the schedule action is at index 1 of the
action list, both relays come after it. -/
theorem approval_task_before_relay (p : Payload) (c : Consumer) (st : HState)
    (happ : p.approved = some true) :
    handle_alert_response p c st =
      ([Action.log,
        Action.scheduleTask (pyStr p.requesting_user_id) c.room_id,
        Action.groupSend ("user_" ++ pyStr p.requesting_user_id)
          { type_ := "alert_response", approved := p.approved, room_id := some c.room_id },
        Action.groupSend ("room_" ++ c.room_id)
          { type_ := "join_response", user_id := p.requesting_user_id, approved := p.approved }],
       st) := by
  unfold handle_alert_response
  rw [if_pos happ]

/-- Witness for C5 at a concrete approval of guest `guest_7` in room `r-9`. -/
theorem approval_task_before_relay_witness :
    handle_alert_response
        { approved := some true, requesting_user_id := some "guest_7" }
        { room_id := "r-9", channel_name := "ch-mod" }
        { user_id := some "42", assignment := fun _ => none } =
      ([Action.log,
        Action.scheduleTask "guest_7" "r-9",
        Action.groupSend "user_guest_7"
          { type_ := "alert_response", approved := some true, room_id := some "r-9" },
        Action.groupSend "room_r-9"
          { type_ := "join_response", user_id := some "guest_7", approved := some true }],
       { user_id := some "42", assignment := fun _ => none }) :=
  approval_task_before_relay _ _ _ rfl

/-- C2 counterexample: the `user_mute_status` message sender performs no
`sender_channel` comparison, so the connection that broadcast its own mute
state receives the event back: delivery happens even when the receiving
channel equals the event's sender channel. -/
theorem mute_status_echoes_to_sender :
    deliverRoomEvent "specific.abc!chan1"
        { type_ := "user_mute_status", user_id := some "u1", is_muted := some true,
          sender_channel := some "specific.abc!chan1" } =
      some "user-mute-status" := by
  decide

/-- C2 amended: for every handler name a consumer can receive from the
channel layer, when the event carries the receiving connection's own channel
as `sender_channel`, the message sender suppresses delivery exactly for the
handler names outside `echoingEventTypes`; the handlers listed there
(`user_mute_status`, `user_kicked`, the join-request/response pair, the
disconnect notice, the duration events and most breakout lifecycle events)
deliver the event back to its originator. -/
theorem echo_suppression_characterisation (t : String)
    (ht : t ∈ groupHandlerTypes) (ch : String) (ev : GroupEvent)
    (hty : ev.type_ = t) (h : ev.sender_channel = some ch) :
    (deliverRoomEvent ch ev).isSome = true ↔ t ∈ echoingEventTypes := by
  unfold deliverRoomEvent
  rw [hty, h]
  fin_cases ht <;> simp [echoingEventTypes]

/-- Witness for C2 (amended): a `video_off` event tagged with the receiver's
own channel is not delivered back (its sender method carries the echo guard),
matching its absence from `echoingEventTypes`. -/
theorem echo_suppression_characterisation_witness :
    ((deliverRoomEvent "chan.1"
        { type_ := "video_off", user_id := some "u1",
          sender_channel := some "chan.1" }).isSome = true) ↔
      ("video_off" : String) ∈ echoingEventTypes :=
  echo_suppression_characterisation "video_off" (by decide) "chan.1" _ rfl rfl

/-- C4: with the room existing and the caller's session actually pending for
this room (the waiting-participant precondition), `mark_guest_approved_view`
grants access iff a `room_approval` record for (room, participant) exists:
without one it returns the access-denied outcome and changes neither the
session nor the record set; with one it marks the session approved and
deletes the record (consumed exactly once). -/
theorem confirm_requires_pending_approval (authUser : Option String)
    (sess : GuestSession) (approvals : List (String × String))
    (room_id uid : String) (hpend : pyStr sess.pending_room_id = room_id)
    (huid : uid = match authUser with
      | some u => u
      | none => sess.pending_user_id.getD "") :
    ((mark_guest_approved true authUser sess approvals room_id).1 =
        MarkGuestResult.success ↔ (room_id, uid) ∈ approvals) ∧
    ((room_id, uid) ∉ approvals →
      mark_guest_approved true authUser sess approvals room_id =
        (MarkGuestResult.approvalNotFound, sess, approvals)) ∧
    ((room_id, uid) ∈ approvals →
      (mark_guest_approved true authUser sess approvals room_id).1 =
          MarkGuestResult.success ∧
        room_id ∈ (mark_guest_approved true authUser sess approvals room_id).2.1.approvedRooms ∧
        (mark_guest_approved true authUser sess approvals room_id).2.2 =
          approvals.filter (fun rec => rec ≠ (room_id, uid))) := by
  subst huid
  unfold mark_guest_approved
  by_cases hmem : (room_id, match authUser with
      | some u => u
      | none => sess.pending_user_id.getD "") ∈ approvals <;>
    simp [hpend, hmem]

/-- Witness for C4: concrete guest `guest_9` pending for room `r-2`; with the
approval record present the call succeeds, consumes the record and marks the
session; the success outcome is equivalent to the record's presence. -/
theorem confirm_requires_pending_approval_witness :
    ((mark_guest_approved true none
        { pending_room_id := some "r-2", pending_user_id := some "guest_9" }
        [("r-2", "guest_9")] "r-2").1 = MarkGuestResult.success ↔
      ("r-2", "guest_9") ∈ [("r-2", "guest_9")]) ∧
    (("r-2", "guest_9") ∉ [("r-2", "guest_9")] →
      mark_guest_approved true none
          { pending_room_id := some "r-2", pending_user_id := some "guest_9" }
          [("r-2", "guest_9")] "r-2" =
        (MarkGuestResult.approvalNotFound,
         { pending_room_id := some "r-2", pending_user_id := some "guest_9" },
         [("r-2", "guest_9")])) ∧
    (("r-2", "guest_9") ∈ [("r-2", "guest_9")] →
      (mark_guest_approved true none
          { pending_room_id := some "r-2", pending_user_id := some "guest_9" }
          [("r-2", "guest_9")] "r-2").1 = MarkGuestResult.success ∧
        "r-2" ∈ (mark_guest_approved true none
          { pending_room_id := some "r-2", pending_user_id := some "guest_9" }
          [("r-2", "guest_9")] "r-2").2.1.approvedRooms ∧
        (mark_guest_approved true none
          { pending_room_id := some "r-2", pending_user_id := some "guest_9" }
          [("r-2", "guest_9")] "r-2").2.2 =
          [("r-2", "guest_9")].filter (fun rec => rec ≠ ("r-2", "guest_9"))) :=
  confirm_requires_pending_approval none _ _ "r-2" "guest_9" rfl rfl

/-- C6 counterexample: on a Free plan (no breakout entitlement) the verified
moderator's assign-to-breakout request still takes effect — the assignment is
stored in the shared cache and no breakout-error is sent — because
`handle_assign_to_breakout` performs no plan-entitlement check. -/
theorem assign_breakout_skips_plan_check :
    canUseBreakoutRooms (some { ownerId := "42", orgLimits := some freeDefaults }) = false ∧
    (handle_assign_to_breakout
        { moderator_id := some "42", user_id := some "7", breakout_id := some "b1" }
        { room := some { ownerId := "42", orgLimits := some freeDefaults } }
        { room_id := "abc-defg-hij", channel_name := "ch1" }
        { user_id := none, assignment := fun _ => none }).2.assignment "7" = some "b1" ∧
    Action.sendSelf "breakout-error" ∉
      (handle_assign_to_breakout
        { moderator_id := some "42", user_id := some "7", breakout_id := some "b1" }
        { room := some { ownerId := "42", orgLimits := some freeDefaults } }
        { room_id := "abc-defg-hij", channel_name := "ch1" }
        { user_id := none, assignment := fun _ => none }).1 := by
  refine ⟨rfl, rfl, ?_⟩
  decide

/-- C6 amended: creating breakout rooms requires both the verified moderator
identity (checked against the room's persisted owner/author) and the plan
entitlement; assigning to and closing breakouts are gated on the moderator
check alone (no plan-entitlement check).  Whenever the moderator check fails,
each handler only sends a breakout-error back and performs no state change. -/
theorem breakout_moderator_gating (p : Payload) (env : Env) (c : Consumer)
    (st : HState) :
    (isModerator env.room p.moderator_id = false →
      handle_create_breakout p env c st = ([Action.sendSelf "breakout-error"], st) ∧
      handle_assign_to_breakout p env c st = ([Action.sendSelf "breakout-error"], st) ∧
      handle_close_breakouts p env c st = ([Action.sendSelf "breakout-error"], st)) ∧
    (isModerator env.room p.moderator_id = true →
      canUseBreakoutRooms env.room = false →
      handle_create_breakout p env c st = ([Action.sendSelf "breakout-error"], st)) ∧
    (isModerator env.room p.moderator_id = true →
      (handle_assign_to_breakout p env c st).2.assignment (pyStr p.user_id) =
          p.breakout_id ∧
      Action.closeBreakoutsDb ∈ (handle_close_breakouts p env c st).1) := by
  refine ⟨fun hm => ?_, fun hm hplan => ?_, fun hm => ?_⟩
  · unfold handle_create_breakout handle_assign_to_breakout handle_close_breakouts
    simp [hm]
  · unfold handle_create_breakout
    simp [hm, hplan]
  · unfold handle_assign_to_breakout handle_close_breakouts
    simp [hm]

/-- Witness for C6 (amended): a non-owner id `99` gets only a breakout-error
from assign; the real owner `42` on a Free plan gets a breakout-error from
create, yet the same owner's close request reaches the database update. -/
theorem breakout_moderator_gating_witness :
    handle_assign_to_breakout { moderator_id := some "99" }
        { room := some { ownerId := "42", orgLimits := some freeDefaults } }
        { room_id := "r1", channel_name := "ch1" }
        { user_id := none, assignment := fun _ => none } =
      ([Action.sendSelf "breakout-error"],
       { user_id := none, assignment := fun _ => none }) ∧
    handle_create_breakout { moderator_id := some "42" }
        { room := some { ownerId := "42", orgLimits := some freeDefaults } }
        { room_id := "r1", channel_name := "ch1" }
        { user_id := none, assignment := fun _ => none } =
      ([Action.sendSelf "breakout-error"],
       { user_id := none, assignment := fun _ => none }) ∧
    Action.closeBreakoutsDb ∈
      (handle_close_breakouts { moderator_id := some "42" }
        { room := some { ownerId := "42", orgLimits := some freeDefaults } }
        { room_id := "r1", channel_name := "ch1" }
        { user_id := none, assignment := fun _ => none }).1 :=
  ⟨((breakout_moderator_gating _ _ _ _).1 (by decide)).2.1,
   (breakout_moderator_gating _ _ _ _).2.1 (by decide) (by decide),
   ((breakout_moderator_gating _ _ _ _).2.2 (by decide)).2⟩

/-- C7 counterexample: a participant whose stored assignment matches the
requested breakout (`u1` assigned to `B1`, asking to join `B1`) is still
rejected with a breakout-error and never added to the breakout group when the
plan lacks the breakout entitlement — so admission is not equivalent to the
assignment matching. -/
theorem join_breakout_not_pure_assignment_check :
    (handle_join_breakout { user_id := some "u1", breakout_id := some "B1" }
        { room := some { ownerId := "42", orgLimits := some freeDefaults } }
        { room_id := "r1", channel_name := "ch1" }
        { user_id := none,
          assignment := fun u => if u = "u1" then some "B1" else none }).1 =
      [Action.sendSelf "breakout-error"] ∧
    (fun u => if u = "u1" then some "B1" else none) "u1" = some "B1" ∧
    Action.groupAdd "breakout_B1" ∉
      (handle_join_breakout { user_id := some "u1", breakout_id := some "B1" }
        { room := some { ownerId := "42", orgLimits := some freeDefaults } }
        { room_id := "r1", channel_name := "ch1" }
        { user_id := none,
          assignment := fun u => if u = "u1" then some "B1" else none }).1 := by
  refine ⟨?_, rfl, ?_⟩ <;> decide

/-- C7 amended: a join-breakout request naming breakout `b` admits the
connection into the `breakout_b` group iff the plan entitles breakout rooms
and the stored assignment for the claimed participant equals `b`; in every
other case the handler sends a breakout-error and performs no group
addition, and the handler never mutates state. -/
theorem join_breakout_requires_assignment (p : Payload) (env : Env)
    (c : Consumer) (st : HState) (b : String) (hb : p.breakout_id = some b) :
    (Action.groupAdd ("breakout_" ++ b) ∈ (handle_join_breakout p env c st).1 ↔
      canUseBreakoutRooms env.room = true ∧
        st.assignment (pyStr (p.user_id <|> st.user_id)) = some b) ∧
    ((canUseBreakoutRooms env.room = false ∨
        st.assignment (pyStr (p.user_id <|> st.user_id)) ≠ some b) →
      (handle_join_breakout p env c st).1 = [Action.sendSelf "breakout-error"]) ∧
    (handle_join_breakout p env c st).2 = st := by
  unfold handle_join_breakout
  rcases hplan : canUseBreakoutRooms env.room with _ | _
  · simp [hplan, hb]
  · by_cases hasg : st.assignment (pyStr (p.user_id <|> st.user_id)) = some b
    · simp only [pyStr] at hasg
      simp [hplan, hb, hasg, pyStr]
    · simp [hplan, hb, hasg]

/-- Witness for C7 (amended): on a Business plan with `u1` assigned to `B1`,
the join request for `B1` is admitted into group `breakout_B1`. -/
theorem join_breakout_requires_assignment_witness :
    Action.groupAdd "breakout_B1" ∈
      (handle_join_breakout { user_id := some "u1", breakout_id := some "B1" }
        { room := some { ownerId := "42", orgLimits := some businessPlan } }
        { room_id := "r1", channel_name := "ch1" }
        { user_id := none,
          assignment := fun u => if u = "u1" then some "B1" else none }).1 :=
  (join_breakout_requires_assignment _ _ _ _ "B1" rfl).1.mpr ⟨rfl, rfl⟩

/-- Warning counts add over concatenation of event sequences. -/
theorem countWarnings_append (a b : List WatchdogEvent) :
    countWarnings (a ++ b) = countWarnings a + countWarnings b := by
  unfold countWarnings
  simp [List.countP_append]

/-- Terminal-event counts add over concatenation of event sequences. -/
theorem countExceeded_append (a b : List WatchdogEvent) :
    countExceeded (a ++ b) = countExceeded a + countExceeded b := by
  unfold countExceeded
  simp [List.countP_append]

/-- One poll emits no duration-exceeded event through its warning component. -/
theorem watchdogWarn_no_exceeded (limit elapsed : Int) :
    countExceeded (watchdogWarn limit elapsed) = 0 := by
  unfold watchdogWarn countExceeded
  split_ifs <;> rfl

/-- Once the remaining time has dropped to 240 seconds or less, no later poll
of the same watchdog task can fire the warning (remaining time only
decreases). -/
theorem watchdog_no_warning_after_window (limit : Int) (elapsed : Int)
    (k : Nat) (h : limit - elapsed ≤ 240) :
    countWarnings (watchdogRun limit elapsed k) = 0 := by
  induction k generalizing elapsed with
  | zero => rfl
  | succ n ih =>
    unfold watchdogRun
    rw [countWarnings_append]
    have h1 : countWarnings (watchdogWarn limit elapsed) = 0 := by
      unfold watchdogWarn countWarnings
      rw [if_neg (by omega)]
      rfl
    rw [h1]
    split_ifs with hterm
    · rfl
    · rw [ih (elapsed + 60) (by omega)]

/-- A single watchdog task emits the 4-to-5-minute warning at most once:
successive polls are 60 seconds apart and the firing window
`240 < remaining <= 300` is only 60 seconds wide. -/
theorem watchdog_warning_at_most_once (limit : Int) (elapsed : Int) (k : Nat) :
    countWarnings (watchdogRun limit elapsed k) ≤ 1 := by
  induction k generalizing elapsed with
  | zero =>
    have h0 : countWarnings (watchdogRun limit elapsed 0) = 0 := rfl
    omega
  | succ n ih =>
    unfold watchdogRun
    rw [countWarnings_append]
    have hterm0 : countWarnings [WatchdogEvent.exceeded] = 0 := rfl
    by_cases hw : 240 < limit - elapsed ∧ limit - elapsed ≤ 300
    · have h1 : countWarnings (watchdogWarn limit elapsed) = 1 := by
        unfold watchdogWarn countWarnings
        rw [if_pos hw]
        rfl
      rw [h1]
      split_ifs with hterm
      · omega
      · have h2 : countWarnings (watchdogRun limit (elapsed + 60) n) = 0 :=
          watchdog_no_warning_after_window limit (elapsed + 60) n (by omega)
        omega
    · have h1 : countWarnings (watchdogWarn limit elapsed) = 0 := by
        unfold watchdogWarn countWarnings
        rw [if_neg hw]
        rfl
      rw [h1]
      split_ifs with hterm
      · omega
      · have h2 := ih (elapsed + 60)
        omega

/-- When the poll budget reaches the limit, the watchdog run ends with the
terminal duration-exceeded event, which occurs nowhere earlier in the run. -/
theorem watchdog_terminal_once (limit : Int) :
    ∀ (k : Nat) (elapsed : Int), 1 ≤ k →
      limit ≤ elapsed + 60 * ((k : Int) - 1) →
      ∃ l, watchdogRun limit elapsed k = l ++ [WatchdogEvent.exceeded] ∧
        countExceeded l = 0 := by
  intro k
  induction k with
  | zero => intro elapsed hk; exact absurd hk (by omega)
  | succ n ih =>
    intro elapsed _ hreach
    unfold watchdogRun
    split_ifs with hterm
    · exact ⟨watchdogWarn limit elapsed, rfl, watchdogWarn_no_exceeded limit elapsed⟩
    · have hn : 1 ≤ n := by
        rcases Nat.eq_zero_or_pos n with h0 | h1
        · subst h0; push_cast at hreach; omega
        · exact h1
      have hreach2 : limit ≤ (elapsed + 60) + 60 * ((n : Int) - 1) := by
        push_cast at hreach ⊢; omega
      obtain ⟨l, hl, h0⟩ := ih (elapsed + 60) hn hreach2
      refine ⟨watchdogWarn limit elapsed ++ l, ?_, ?_⟩
      · rw [hl, List.append_assoc]
      · rw [countExceeded_append, h0, watchdogWarn_no_exceeded]

/-- C8 counterexample: the watchdog task is spawned per connection, not once
per room — a second connection to a room whose session clock is already
running spawns a second `_check_duration_limit` task (the 30-minute Free
plan gives both a 1800-second limit). -/
theorem watchdog_spawned_per_connection :
    Action.spawnWatchdog 1800 ∈
      (connect "r1" (some { ownerId := "o1", orgLimits := some freeDefaults })
        { count := none, start := none } 0).1 ∧
    Action.spawnWatchdog 1800 ∈
      (connect "r1" (some { ownerId := "o1", orgLimits := some freeDefaults })
        (connect "r1" (some { ownerId := "o1", orgLimits := some freeDefaults })
          { count := none, start := none } 0).2.2 60).1 := by
  decide

/-- C8 amended: each spawned watchdog task polls at a fixed 60-second step
and, over any poll budget long enough to reach the limit, broadcasts the
4-to-5-minute warning at most once and the terminal duration-exceeded event
exactly once, as the final event of its run — after it the task polls no
further.  (The task is per connection, not per room.) -/
theorem watchdog_per_task_behaviour (limit : Int) (elapsed : Int) (k : Nat)
    (hk : 1 ≤ k) (hreach : limit ≤ elapsed + 60 * ((k : Int) - 1)) :
    countWarnings (watchdogRun limit elapsed k) ≤ 1 ∧
    countExceeded (watchdogRun limit elapsed k) = 1 ∧
    ∃ l, watchdogRun limit elapsed k = l ++ [WatchdogEvent.exceeded] ∧
      countExceeded l = 0 := by
  obtain ⟨l, hl, h0⟩ := watchdog_terminal_once limit k elapsed hk hreach
  refine ⟨watchdog_warning_at_most_once limit elapsed k, ?_, ⟨l, hl, h0⟩⟩
  rw [hl, countExceeded_append, h0]
  rfl

/-- Witness for C8 (amended): the spec's 30-minute scenario — limit 1800 s,
first poll at 60 s elapsed, 30 polls: one warning at most, one terminal
event, terminal last. -/
theorem watchdog_per_task_behaviour_witness :
    countWarnings (watchdogRun 1800 60 30) ≤ 1 ∧
    countExceeded (watchdogRun 1800 60 30) = 1 ∧
    ∃ l, watchdogRun 1800 60 30 = l ++ [WatchdogEvent.exceeded] ∧
      countExceeded l = 0 :=
  watchdog_per_task_behaviour 1800 60 30 (by decide) (by decide)

/-- C9 counterexample: a well-sized, well-formed JSON frame of unknown event
type is dropped without any logging (the if/elif chain simply falls through),
whereas the claim says malformed frames — including unknown event types — are
logged. -/
theorem unknown_event_type_not_logged :
    (receive 10 (some { type_ := some "frobnicate", data := {} })
        { room := none } { room_id := "r1", channel_name := "c1" }
        { user_id := none, assignment := fun _ => none }).1 = [] ∧
    Action.log ∉
      (receive 10 (some { type_ := some "frobnicate", data := {} })
        { room := none } { room_id := "r1", channel_name := "c1" }
        { user_id := none, assignment := fun _ => none }).1 := by
  refine ⟨by decide, by decide⟩

/-- C9 amended: oversized frames (above 64 KiB) and undecodable frames are
logged and dropped; frames whose event type is absent or unknown are dropped
silently; in every such case the handler performs no group send, no state
change and never closes the connection. -/
theorem receive_guard_behaviour (n : Nat) (parsed : Option InMsg) (env : Env)
    (c : Consumer) (st : HState) :
    (n > MAX_MESSAGE_SIZE → receive n parsed env c st = ([Action.log], st)) ∧
    (n ≤ MAX_MESSAGE_SIZE → parsed = none →
      receive n parsed env c st = ([Action.log], st)) ∧
    (∀ msg, n ≤ MAX_MESSAGE_SIZE → parsed = some msg → msg.type_ = none →
      receive n parsed env c st = ([], st)) ∧
    (∀ msg t, n ≤ MAX_MESSAGE_SIZE → parsed = some msg → msg.type_ = some t →
      t ∉ knownEventTypes → receive n parsed env c st = ([], st)) := by
  refine ⟨fun hgt => ?_, fun hn hp => ?_, fun msg hn hp hty => ?_,
    fun msg t hn hp hty ht => ?_⟩
  · unfold receive
    rw [if_pos hgt]
  · subst hp
    unfold receive
    rw [if_neg (by omega)]
  · subst hp
    unfold receive
    rw [if_neg (by omega)]
    show dispatchEvent msg.type_ msg.data env c st = ([], st)
    rw [hty]
    rfl
  · subst hp
    unfold receive
    rw [if_neg (by omega)]
    show dispatchEvent msg.type_ msg.data env c st = ([], st)
    rw [hty]
    have hne : ∀ s, s ∈ knownEventTypes → (some t : Option String) ≠ some s :=
      fun s hs he => ht ((Option.some.inj he) ▸ hs)
    unfold dispatchEvent
    rw [if_neg (hne "ping" (by decide)),
      if_neg (hne "join-room" (by decide)),
      if_neg (hne "video-off" (by decide)),
      if_neg (hne "on-the-video" (by decide)),
      if_neg (hne "screen-share-off" (by decide)),
      if_neg (hne "new-chat" (by decide)),
      if_neg (hne "recording-started" (by decide)),
      if_neg (hne "recording-stopped" (by decide)),
      if_neg (hne "alert" (by decide)),
      if_neg (hne "alert-response" (by decide)),
      if_neg (hne "mute-status" (by decide)),
      if_neg (hne "mute-all" (by decide)),
      if_neg (hne "kick-user" (by decide)),
      if_neg (hne "share-info" (by decide)),
      if_neg (hne "request-info" (by decide)),
      if_neg (hne "end-meeting" (by decide)),
      if_neg (hne "create-breakout" (by decide)),
      if_neg (hne "assign-to-breakout" (by decide)),
      if_neg (hne "join-breakout" (by decide)),
      if_neg (hne "return-to-main" (by decide)),
      if_neg (hne "close-breakouts" (by decide)),
      if_neg (hne "broadcast-to-breakouts" (by decide))]

/-- Witness for C9 (amended): a 70000-byte frame is logged and dropped; a
frame with no `type` key is dropped without logging. -/
theorem receive_guard_behaviour_witness :
    receive 70000 none { room := none } { room_id := "r1", channel_name := "c1" }
        { user_id := none, assignment := fun _ => none } =
      ([Action.log], { user_id := none, assignment := fun _ => none }) ∧
    receive 12 (some { type_ := none, data := {} }) { room := none }
        { room_id := "r1", channel_name := "c1" }
        { user_id := none, assignment := fun _ => none } =
      ([], { user_id := none, assignment := fun _ => none }) :=
  ⟨(receive_guard_behaviour 70000 none _ _ _).1 (by decide),
   (receive_guard_behaviour 12 _ _ _ _).2.2.1 _ (by decide) rfl rfl⟩

/-- C10: a register frame on the user-notification consumer subscribes the
socket to the notification group of the supplied id iff that id is present,
non-empty and starts with `guest_`; any other supplied id (such as a numeric
authenticated user id) leaves the registration and group subscriptions
unchanged. -/
theorem register_requires_guest_id (n : Nat) (g : Option String)
    (reg : Option String) (hn : n ≤ MAX_MESSAGE_SIZE) :
    (∀ s, g = some s → s ≠ "" → pyStartswith s "guest_" = true →
      userReceive n (some { type_ := some "register", data := { user_id := g } }) reg =
        ([Action.groupAdd ("user_" ++ s), Action.log, Action.sendSelf "registered"],
         some s)) ∧
    ((∀ s, g = some s → s = "" ∨ pyStartswith s "guest_" = false) →
      userReceive n (some { type_ := some "register", data := { user_id := g } }) reg =
        ([], reg)) := by
  constructor
  · intro s hg hne hpre
    subst hg
    unfold userReceive
    rw [if_neg (by omega)]
    simp [hne, hpre]
  · intro hbad
    unfold userReceive
    rw [if_neg (by omega)]
    rcases g with _ | s
    · simp
    · rcases hbad s rfl with h1 | h2
      · subst h1
        simp
      · simp [h2]

/-- Witness for C10: `guest_abc123` is subscribed to its notification group;
the plain id `12345` is ignored and the registration stays empty. -/
theorem register_requires_guest_id_witness :
    userReceive 20
        (some { type_ := some "register", data := { user_id := some "guest_abc123" } })
        none =
      ([Action.groupAdd "user_guest_abc123", Action.log, Action.sendSelf "registered"],
       some "guest_abc123") ∧
    userReceive 20
        (some { type_ := some "register", data := { user_id := some "12345" } })
        none =
      ([], none) :=
  ⟨(register_requires_guest_id 20 (some "guest_abc123") none (by decide)).1
      "guest_abc123" rfl (by decide) (by decide),
   (register_requires_guest_id 20 (some "12345") none (by decide)).2
      (fun s hs => by
        injection hs with h
        subst h
        exact Or.inr (by decide))⟩

end Meetingapp
